import Mathlib

/-!
Shallow embedding of the voice-assistant orchestration program in `src/main.py`.

The program is sequencing glue around remote calls (OpenAI threads, runs,
messages, transcription, text-to-speech) and local audio capture.  Every
remote call is modelled by an environment field giving that call's outcome
(`Except` for calls that may raise), and every function returns, next to its
Python return value, the ordered list of observable events it performed
(remote calls, console prints, spoken audio).  The unbounded run-status poll
loop is made total with a fuel argument; exhausting the fuel models a loop
that is still polling.  Python truthiness of optional strings (`None` and
`""` are falsy) is modelled by `truthy`.
-/

namespace VoiceAssistant

/-- Observable events of the embedded program, in program order.  `speak`
models a `play_audio` call (a remote text-to-speech request plus playback),
`enterInterpreter` marks the call of `open_interpreter_session` from the
main loop, and the remaining constructors match the remote client calls and
console prints of `src/main.py` one for one. -/
inductive Event where
  | printLine (s : String)
  | retrieveThread (tid : String)
  | createThread
  | createMessage (tid role content : String)
  | createRun (tid instr : String)
  | retrieveRun (rid : Nat)
  | sleep (n : Nat)
  | listMessages (tid order : String) (limit : Nat)
  | adjustNoise
  | listen
  | tempCreate (path : String)
  | transcribeCall
  | tempUnlink (path : String)
  | speak (text voice : String)
  | enterInterpreter
  | interpreterChat (msg : String)
  deriving BEq, DecidableEq, Repr

/-- Python truthiness of an optional string: `None` and `""` are falsy. -/
def truthy : Option String → Bool
  | none => false
  | some s => s != ""

/-- The ASCII apostrophe, written via its code point so string literals can
reproduce the exact Python message texts. -/
def sq : String := String.singleton (Char.ofNat 39)

/-- Startup configuration read from the process environment (`config.py`),
together with the assistant handle produced by `initialize_assistant` at
startup.  `apiKey` models `client.api_key`, `assistantId` the global
`assistant_id`, `userName` the `USER_NAME` value. -/
structure Config where
  apiKey : Option String
  assistantId : Option String
  userName : String

/-- Outcomes supplied by the remote service for the two thread-management
calls made by `get_or_create_thread`: retrieval of a given thread id either
succeeds or raises, and creation either returns the new thread's id or
raises. -/
structure ThreadEnv where
  retrieveThread : String → Except String Unit
  createThread : Except String String

/-- Result of `get_or_create_thread`: the returned handle (or `none`), the
new value of the process-wide cached global `thread_id`, and the event
trace. -/
structure GocResult where
  result : Option String
  cache : Option String
  trace : List Event
  deriving DecidableEq, Repr

/-- Shallow embedding of `get_or_create_thread` (src/main.py lines 22-38).
If the cached global `thread_id` is truthy, a retrieval of it is attempted
first and reused on success; on a retrieval exception, or when no truthy
handle is cached, a creation is attempted, which on success stores the new
id in the global and returns it, and on an exception returns `None` leaving
the global unchanged. -/
def get_or_create_thread (env : ThreadEnv) (cached : Option String) : GocResult :=
  let create (pre : List Event) : GocResult :=
    match env.createThread with
    | .ok tid =>
        { result := some tid, cache := some tid,
          trace := pre ++ [Event.createThread,
            Event.printLine ("New thread created with ID: " ++ tid)] }
    | .error e =>
        { result := none, cache := cached,
          trace := pre ++ [Event.createThread,
            Event.printLine ("Error creating thread: " ++ e)] }
  if truthy cached then
    let tid := cached.getD ""
    match env.retrieveThread tid with
    | .ok _ => { result := some tid, cache := cached, trace := [Event.retrieveThread tid] }
    | .error e =>
        create [Event.retrieveThread tid,
          Event.printLine ("Error retrieving thread: " ++ e)]
  else
    create []

/-- A message returned by the message-list call: its role and the text
values of its content blocks (`latest_message.content[i].text.value`). -/
structure Msg where
  role : String
  content : List String
  deriving DecidableEq, Repr

/-- Outcomes supplied by the remote service for the calls `analyze_audio`
makes after thread acquisition: the user-message append, the run creation
(returning a run id), the run-status retrieval at each successive poll
(indexed by poll number), and the message-list call. -/
structure RunEnv where
  createMessage : Except String Unit
  createRun : Except String Nat
  runStatus : Nat → Except String String
  listMessages : Except String (List Msg)

/-- Outcome of the run-status poll loop. -/
inductive PollOut where
  | completed
  | failedWith (s : String)
  | raised (e : String)
  | outOfFuel
  deriving DecidableEq, Repr

/-- The terminal-failure status set checked by the poll loop
(src/main.py line 91). -/
def failStatuses : List String := ["failed", "cancelled", "expired"]

/-- Shallow embedding of the run-status poll loop of `analyze_audio`
(src/main.py lines 87-93): retrieve the run status, break on `completed`,
return on a status in `failStatuses`, otherwise sleep one time unit and
poll again.  `fuel` bounds the number of polls so the function is total;
`outOfFuel` models a loop that is still polling. -/
def pollLoop (st : Nat → Except String String) (rid : Nat) : Nat → Nat → PollOut × List Event
  | 0, _ => (PollOut.outOfFuel, [])
  | fuel + 1, i =>
    match st i with
    | .error e => (PollOut.raised e, [Event.retrieveRun rid])
    | .ok s =>
      if s == "completed" then (PollOut.completed, [Event.retrieveRun rid])
      else if failStatuses.contains s then (PollOut.failedWith s, [Event.retrieveRun rid])
      else
        let r := pollLoop st rid fuel (i + 1)
        (r.1, Event.retrieveRun rid :: Event.sleep 1 :: r.2)

/-- The guard message of `analyze_audio` (src/main.py line 67). -/
def disabledMsg : String :=
  "OpenAI functionalities are disabled or assistant is not initialized. Cannot analyze audio."

/-- The thread-failure report of `analyze_audio` (src/main.py line 72). -/
def threadFailMsg : String :=
  "Failed to create or retrieve a thread. Cannot process the request."

/-- The per-run instructions string of `analyze_audio`
(src/main.py lines 83-84). -/
def runInstructions (userName : String) : String :=
  "Remember to address the user as " ++ userName ++
    " and maintain your friendly, supportive demeanor.\n            If the user wants to start an Open Interpreter session, inform them to say "
    ++ sq ++ "Start Open Interpreter" ++ sq ++ "."

/-- The terminal-failure return of the poll loop (src/main.py line 92). -/
def runFailedMsg (s : String) : String := "Run failed with status: " ++ s

/-- The fallback reply of `analyze_audio` when no assistant message is found
(src/main.py line 106). -/
def noResponseMsg (userName : String) : String :=
  "I" ++ sq ++ "m sorry, " ++ userName ++
    ", I didn" ++ sq ++ "t receive a response. How else can I assist you?"

/-- The apology produced by `analyze_audio`'s exception handler
(src/main.py line 110). -/
def apologyMsg (userName : String) : String :=
  "I" ++ sq ++ "m sorry, " ++ userName ++
    ", I encountered an error while processing your request. How can I help you differently?"

/-- Result of `analyze_audio`: the returned string (`none` models the poll
loop still polling, i.e. nontermination; no exception outcome exists because
the function catches every exception), the new cached `thread_id`, and the
event trace. -/
structure AAResult where
  result : Option String
  cache : Option String
  trace : List Event
  deriving DecidableEq, Repr

/-- Shallow embedding of `analyze_audio` (src/main.py lines 65-110).  The
guard returns `disabledMsg` when the api key or the assistant handle is
falsy; then, inside the try block, thread acquisition, user-message append,
run creation, the poll loop and the newest-first limit-1 message fetch run
in order; any `Except.error` at those steps is converted into
`apologyMsg` (the handler also catches the index error from an empty
`content` list), a falsy thread handle into `threadFailMsg`, and a terminal
failure status into `runFailedMsg`. -/
def analyze_audio (cfg : Config) (env : RunEnv) (tenv : ThreadEnv)
    (cached : Option String) (fuel : Nat) (user_prompt : String) : AAResult :=
  if !truthy cfg.apiKey || !truthy cfg.assistantId then
    { result := some disabledMsg, cache := cached, trace := [] }
  else
    let g := get_or_create_thread tenv cached
    if !truthy g.result then
      { result := some threadFailMsg, cache := g.cache, trace := g.trace }
    else
      let tid := g.result.getD ""
      match env.createMessage with
      | .error e =>
        { result := some (apologyMsg cfg.userName), cache := g.cache,
          trace := g.trace ++ [Event.createMessage tid "user" user_prompt,
            Event.printLine ("Error in analyze_audio: " ++ e)] }
      | .ok _ =>
        let tr1 := g.trace ++ [Event.createMessage tid "user" user_prompt]
        match env.createRun with
        | .error e =>
          { result := some (apologyMsg cfg.userName), cache := g.cache,
            trace := tr1 ++ [Event.createRun tid (runInstructions cfg.userName),
              Event.printLine ("Error in analyze_audio: " ++ e)] }
        | .ok rid =>
          let tr2 := tr1 ++ [Event.createRun tid (runInstructions cfg.userName)]
          let p := pollLoop env.runStatus rid fuel 0
          match p.1 with
          | PollOut.outOfFuel => { result := none, cache := g.cache, trace := tr2 ++ p.2 }
          | PollOut.raised e =>
            { result := some (apologyMsg cfg.userName), cache := g.cache,
              trace := tr2 ++ p.2 ++ [Event.printLine ("Error in analyze_audio: " ++ e)] }
          | PollOut.failedWith s =>
            { result := some (runFailedMsg s), cache := g.cache, trace := tr2 ++ p.2 }
          | PollOut.completed =>
            let tr3 := tr2 ++ p.2 ++ [Event.listMessages tid "desc" 1]
            match env.listMessages with
            | .error e =>
              { result := some (apologyMsg cfg.userName), cache := g.cache,
                trace := tr3 ++ [Event.printLine ("Error in analyze_audio: " ++ e)] }
            | .ok msgs =>
              match msgs with
              | [] =>
                { result := some (noResponseMsg cfg.userName), cache := g.cache, trace := tr3 }
              | m :: _ =>
                if m.role == "assistant" then
                  match m.content with
                  | [] =>
                    { result := some (apologyMsg cfg.userName), cache := g.cache,
                      trace := tr3 ++
                        [Event.printLine "Error in analyze_audio: list index out of range"] }
                  | c :: _ => { result := some c, cache := g.cache, trace := tr3 }
                else
                  { result := some (noResponseMsg cfg.userName), cache := g.cache, trace := tr3 }

/-- Python `str.strip` on the string's character list: leading and
trailing whitespace removed.  Defined by structural recursion so concrete
instances reduce inside the kernel. -/
def pyStrip (s : String) : String :=
  ⟨((s.data.dropWhile Char.isWhitespace).reverse.dropWhile Char.isWhitespace).reverse⟩

/-- Python `str.lower` on the string's character list, defined by
structural recursion so concrete instances reduce inside the kernel. -/
def pyLower (s : String) : String :=
  ⟨s.data.map Char.toLower⟩

/-- Outcomes supplied by the environment for `transcribe_audio`:
`clientNone` models the `client is None` guard, `writeTemp` the creation of
the temporary WAV file (yielding its path, or raising), and `transcribe`
the remote transcription call (yielding the raw text, or raising; opening
the file for reading is folded into this outcome). -/
structure TransEnv where
  clientNone : Bool
  writeTemp : Except String String
  transcribe : Except String String

/-- Result of `transcribe_audio` or `get_audio_input`: the returned
transcript (or `None`) and the event trace. -/
structure TransResult where
  result : Option String
  trace : List Event
  deriving DecidableEq, Repr

/-- Shallow embedding of `transcribe_audio` (src/main.py lines 184-206).
The temporary file is created and written, the transcription call is made
and its text stripped, and only then is the temporary file unlinked; an
exception anywhere in the try block jumps to the handler, which prints the
error and returns `None` (the timing print of line 200 is not modelled). -/
def transcribe_audio (env : TransEnv) : TransResult :=
  if env.clientNone then
    { result := none,
      trace := [Event.printLine "OpenAI client not initialized. Skipping transcription."] }
  else
    match env.writeTemp with
    | .error e =>
      { result := none, trace := [Event.printLine ("Error in transcribe_audio: " ++ e)] }
    | .ok path =>
      match env.transcribe with
      | .ok t =>
        { result := some (pyStrip t),
          trace := [Event.tempCreate path, Event.transcribeCall, Event.tempUnlink path] }
      | .error e =>
        { result := none,
          trace := [Event.tempCreate path, Event.transcribeCall,
            Event.printLine ("Error in transcribe_audio: " ++ e)] }

/-- Outcomes supplied by the environment for one `get_audio_input` call:
`listenTimeout` models `recognizer.listen` raising `sr.WaitTimeoutError`,
and `trans` the outcomes of the inner `transcribe_audio` call. -/
structure CapEnv where
  listenTimeout : Bool
  trans : TransEnv

/-- Shallow embedding of `get_audio_input` (src/main.py lines 153-182).
Ambient-noise adjustment and listening are local microphone work; a listen
timeout returns `None` before `transcribe_audio` is ever called; otherwise
the transcript is returned when truthy and `None` when transcription
returned `None` or an empty string.  The `sr.UnknownValueError` and
`sr.RequestError` handlers of lines 177-182 are unreachable because
`transcribe_audio` catches every exception itself. -/
def get_audio_input (env : CapEnv) : TransResult :=
  let pre := [Event.printLine "Listening for speech...", Event.adjustNoise]
  if env.listenTimeout then
    { result := none,
      trace := pre ++ [Event.listen,
        Event.printLine "No speech detected within the timeout period."] }
  else
    let t := transcribe_audio env.trans
    match t.result with
    | some tr0 =>
      if tr0 != "" then
        { result := some tr0,
          trace := pre ++ [Event.listen, Event.printLine "Processing..."] ++ t.trace ++
            [Event.printLine ("Transcribed audio: " ++ tr0)] }
      else
        { result := none,
          trace := pre ++ [Event.listen, Event.printLine "Processing..."] ++ t.trace ++
            [Event.printLine "No speech detected or transcription failed."] }
    | none =>
      { result := none,
        trace := pre ++ [Event.listen, Event.printLine "Processing..."] ++ t.trace ++
          [Event.printLine "No speech detected or transcription failed."] }

/-- The exit phrase of the interpreter sub-loop, compared against the
lower-cased utterance (src/main.py line 121). -/
def innerExit : String := "exit interpreter"

/-- The environment of one iteration of the interpreter sub-loop: the
capture outcomes and the outcome of the `interpreter.chat` call. -/
structure OiIter where
  cap : CapEnv
  chat : Except String String

/-- The while-loop body of `open_interpreter_session` (src/main.py lines
116-132), driven by a script of per-iteration environments; an exhausted
script models a session that is still looping (the loop has no bound).
A `None` capture waits again, the exit phrase ends the session, and any
other utterance is forwarded to `interpreter.chat`, whose reply or error
message is printed and spoken. -/
def oiLoop : List OiIter → Option String × List Event
  | [] => (none, [])
  | it :: rest =>
    let u := get_audio_input it.cap
    match u.result with
    | none =>
      let r := oiLoop rest
      (r.1, u.trace ++
        [Event.printLine "No input detected. Waiting for your command in Open Interpreter mode."]
        ++ r.2)
    | some s =>
      if pyLower s == innerExit then
        (some "Open Interpreter session ended.",
          u.trace ++ [Event.speak "Exiting Open Interpreter mode." "onyx"])
      else
        match it.chat with
        | .ok resp =>
          let r := oiLoop rest
          (r.1, u.trace ++ [Event.interpreterChat s,
            Event.printLine ("Open Interpreter: " ++ resp),
            Event.speak resp "onyx"] ++ r.2)
        | .error e =>
          let r := oiLoop rest
          (r.1, u.trace ++ [Event.interpreterChat s,
            Event.printLine ("Error in Open Interpreter: " ++ e),
            Event.speak ("Error in Open Interpreter: " ++ e) "onyx"] ++ r.2)

/-- Shallow embedding of `open_interpreter_session` (src/main.py lines
112-132): the entry announcement followed by the sub-loop. -/
def open_interpreter_session (script : List OiIter) : Option String × List Event :=
  let header := [
    Event.printLine ("Starting Open Interpreter session. Say " ++ sq ++ "Exit Interpreter"
      ++ sq ++ " to end the session."),
    Event.speak ("Entering Open Interpreter mode. Say " ++ sq ++ "Exit Interpreter"
      ++ sq ++ " to end the session.") "onyx"]
  let r := oiLoop script
  (r.1, header ++ r.2)

/-- The exit words of the main loop, compared against the lower-cased
utterance (src/main.py line 229). -/
def exitWords : List String := ["exit", "quit", "goodbye"]

/-- The trigger phrase for the command-execution mode, compared against the
lower-cased utterance (src/main.py line 236). -/
def oiTrigger : String := "start open interpreter"

/-- The environment of one iteration of the main loop: the capture
outcomes, the remote outcomes used by `analyze_audio` (with its poll fuel),
and the script for an interpreter session should this iteration enter
one. -/
structure MainIter where
  cap : CapEnv
  run : RunEnv
  thread : ThreadEnv
  aaFuel : Nat
  oiScript : List OiIter

/-- How the main loop ended: `exited` models the `break` on an exit word
(a clean return), `diverged` models an inner loop that never terminates
(out-of-fuel poll loop or a never-ending interpreter session), and
`scriptEnded` models a loop that is still running when the iteration script
is exhausted. -/
inductive MainOut where
  | exited
  | diverged
  | scriptEnded
  deriving DecidableEq, Repr

/-- Result of the main loop: how it ended, the final cached `thread_id`,
and the event trace. -/
structure MainResult where
  out : MainOut
  cache : Option String
  trace : List Event
  deriving DecidableEq, Repr

/-- Shallow embedding of the `while True` loop of `main` (src/main.py lines
223-254), driven by a script of per-iteration environments.  A `None`
capture prints a notice and continues; an exit word prints and speaks the
farewell and breaks; the trigger phrase runs an interpreter session and
speaks its terminal message; any other utterance is passed to
`analyze_audio` and the reply is spoken.  The `KeyboardInterrupt` handler
(an asynchronous signal) is not modelled; the top-level `except Exception`
handler is unreachable in the embedding because `analyze_audio`,
`get_audio_input` and `play_audio` already catch their own exceptions. -/
def mainLoop (cfg : Config) : List MainIter → Option String → MainResult
  | [], cached => { out := MainOut.scriptEnded, cache := cached, trace := [] }
  | it :: rest, cached =>
    let u := get_audio_input it.cap
    match u.result with
    | none =>
      let r := mainLoop cfg rest cached
      { out := r.out, cache := r.cache,
        trace := u.trace ++ [Event.printLine "No input detected. Waiting for your command."]
          ++ r.trace }
    | some s =>
      if exitWords.contains (pyLower s) then
        { out := MainOut.exited, cache := cached,
          trace := u.trace ++ [
            Event.printLine ("Athena: Goodbye, " ++ cfg.userName ++ "! Have a great day."),
            Event.speak ("Goodbye, " ++ cfg.userName ++ "! Have a great day.") "nova"] }
      else
        let echo := [Event.printLine (cfg.userName ++ ": " ++ s)]
        if pyLower s == oiTrigger then
          match (open_interpreter_session it.oiScript).1 with
          | none =>
            { out := MainOut.diverged, cache := cached,
              trace := u.trace ++ echo ++ [Event.enterInterpreter]
                ++ (open_interpreter_session it.oiScript).2 }
          | some resp =>
            let r := mainLoop cfg rest cached
            { out := r.out, cache := r.cache,
              trace := u.trace ++ echo ++ [Event.enterInterpreter]
                ++ (open_interpreter_session it.oiScript).2
                ++ [Event.printLine ("Athena: " ++ resp), Event.speak resp "nova",
                  Event.sleep 1, Event.printLine "Listening for speech..."] ++ r.trace }
        else
          let a := analyze_audio cfg it.run it.thread cached it.aaFuel s
          match a.result with
          | none =>
            { out := MainOut.diverged, cache := a.cache, trace := u.trace ++ echo ++ a.trace }
          | some resp =>
            let r := mainLoop cfg rest a.cache
            { out := r.out, cache := r.cache,
              trace := u.trace ++ echo ++ a.trace
                ++ [Event.printLine ("Athena: " ++ resp), Event.speak resp "nova",
                  Event.sleep 1, Event.printLine "Listening for speech..."] ++ r.trace }

/-- Events that are spoken audio (`play_audio` calls). -/
def Event.isSpeak : Event → Bool
  | .speak _ _ => true
  | _ => false

/-- The marker event for entering the command-execution session. -/
def Event.isEnterOi : Event → Bool
  | .enterInterpreter => true
  | _ => false

/-- Remote conversation-session calls: thread retrieval/creation, message
append, run creation, run-status retrieval and message listing. -/
def Event.isConvCall : Event → Bool
  | .retrieveThread _ => true
  | .createThread => true
  | .createMessage _ _ _ => true
  | .createRun _ _ => true
  | .retrieveRun _ => true
  | .listMessages _ _ _ => true
  | _ => false

/-- Events that can occur in a `get_or_create_thread` trace. -/
def Event.isThreadTrace : Event → Bool
  | .retrieveThread _ => true
  | .createThread => true
  | .printLine _ => true
  | _ => false

/-- Events that can occur in a poll-loop trace. -/
def Event.isPollEvent : Event → Bool
  | .retrieveRun _ => true
  | .sleep _ => true
  | _ => false

/-- Events that can occur in a `get_audio_input` trace. -/
def Event.isCaptureLocal : Event → Bool
  | .printLine _ => true
  | .adjustNoise => true
  | .listen => true
  | .tempCreate _ => true
  | .transcribeCall => true
  | .tempUnlink _ => true
  | _ => false

/-- Events that reach out to a remote service: every conversation-session
call, the transcription call and the text-to-speech call of `play_audio`.
Console prints, microphone work, temp-file handling and the interpreter
marker are local. -/
def Event.isRemote : Event → Bool
  | .retrieveThread _ => true
  | .createThread => true
  | .createMessage _ _ _ => true
  | .createRun _ _ => true
  | .retrieveRun _ => true
  | .listMessages _ _ _ => true
  | .transcribeCall => true
  | .speak _ _ => true
  | .interpreterChat _ => true
  | _ => false

/-- The message-list call events. -/
def Event.isListMsgs : Event → Bool
  | .listMessages _ _ _ => true
  | _ => false

/-- `needle` occurs as a contiguous substring of `hay`. -/
def containsStr (hay needle : String) : Prop := needle.data <:+: hay.data

instance (hay needle : String) : Decidable (containsStr hay needle) :=
  List.decidableInfix needle.data hay.data

theorem containsStr_append (a b c : String) : containsStr (a ++ b ++ c) b :=
  ⟨a.data, c.data, by simp [String.data_append]⟩

/-- The trace of `k` non-terminal poll iterations: one status retrieval and
one one-unit sleep per iteration. -/
def repTrace (rid : Nat) : Nat → List Event
  | 0 => []
  | k + 1 => Event.retrieveRun rid :: Event.sleep 1 :: repTrace rid k

theorem all_filter_nil {l : List Event} {p q : Event → Bool}
    (h : l.all p = true) (hpq : ∀ e, p e = true → q e = false) : l.filter q = [] := by
  induction l with
  | nil => rfl
  | cons a t ih =>
    simp only [List.all_cons, Bool.and_eq_true] at h
    simp [List.filter_cons, hpq a h.1, ih h.2]

theorem goc_trace_shape (env : ThreadEnv) (cached : Option String) :
    (get_or_create_thread env cached).trace.all Event.isThreadTrace = true := by
  unfold get_or_create_thread
  by_cases hc : truthy cached = true
  · cases hr : env.retrieveThread (cached.getD "") with
    | ok u => simp [hc, hr, Event.isThreadTrace]
    | error e => cases h : env.createThread <;> simp [hc, hr, h, Event.isThreadTrace]
  · cases h : env.createThread <;> simp [hc, h, Event.isThreadTrace]

theorem pollLoop_trace_shape (st : Nat → Except String String) (rid : Nat) :
    ∀ fuel i, (pollLoop st rid fuel i).2.all Event.isPollEvent = true := by
  intro fuel
  induction fuel with
  | zero => intro i; simp [pollLoop]
  | succ f ih =>
    intro i
    simp only [pollLoop]
    cases h : st i with
    | error e => simp [Event.isPollEvent]
    | ok s =>
      by_cases hc : s = "completed"
      · simp [hc, Event.isPollEvent]
      · by_cases hf : s ∈ failStatuses
        · simp [hc, hf, Event.isPollEvent]
        · simp [hc, hf, Event.isPollEvent, ih (i + 1)]

theorem repTrace_shape (rid : Nat) : ∀ k, (repTrace rid k).all Event.isPollEvent = true := by
  intro k
  induction k with
  | zero => rfl
  | succ n ih => simp [repTrace, Event.isPollEvent, ih]

theorem transcribe_trace_shape (env : TransEnv) :
    (transcribe_audio env).trace.all Event.isCaptureLocal = true := by
  unfold transcribe_audio
  by_cases hc : env.clientNone
  · simp [hc, Event.isCaptureLocal]
  · cases hw : env.writeTemp with
    | error e => simp [hc, hw, Event.isCaptureLocal]
    | ok path =>
      cases ht : env.transcribe <;> simp [hc, hw, ht, Event.isCaptureLocal]

theorem capture_trace_shape (env : CapEnv) :
    (get_audio_input env).trace.all Event.isCaptureLocal = true := by
  unfold get_audio_input
  by_cases hl : env.listenTimeout
  · simp [hl, Event.isCaptureLocal]
  · have htr := transcribe_trace_shape env.trans
    cases h : (transcribe_audio env.trans).result with
    | none => simp only [hl, Bool.false_eq_true, ite_false, h]
              simp [Event.isCaptureLocal, htr]
    | some tr0 =>
      by_cases h0 : tr0 != "" <;>
        · simp only [hl, Bool.false_eq_true, ite_false, h, h0]
          simp [Event.isCaptureLocal, htr, h0]

/-- Statuses on which the poll loop keeps polling: neither `completed` nor
a member of `failStatuses`. -/
def isNonterminal (s : String) : Bool :=
  !(s == "completed") && !(failStatuses.contains s)

theorem pollLoop_reaches (st : Nat → Except String String) (rid : Nat) :
    ∀ k fuel i, k < fuel →
      (∀ j, j < k → ∃ s, st (i + j) = Except.ok s ∧ isNonterminal s = true) →
      (∀ s, st (i + k) = Except.ok s → failStatuses.contains s = true →
        pollLoop st rid fuel i
          = (PollOut.failedWith s, repTrace rid k ++ [Event.retrieveRun rid])) ∧
      (st (i + k) = Except.ok "completed" →
        pollLoop st rid fuel i
          = (PollOut.completed, repTrace rid k ++ [Event.retrieveRun rid])) ∧
      (∀ e, st (i + k) = Except.error e →
        pollLoop st rid fuel i
          = (PollOut.raised e, repTrace rid k ++ [Event.retrieveRun rid])) := by
  intro k
  induction k with
  | zero =>
    intro fuel i hk hpre
    match fuel, hk with
    | f + 1, _ =>
      refine ⟨?_, ?_, ?_⟩
      · intro s hs hf
        have hs' : st i = Except.ok s := by simpa using hs
        have hf' : s ∈ failStatuses := by simpa using hf
        have hne : s ≠ "completed" := by
          have : s = "failed" ∨ s = "cancelled" ∨ s = "expired" := by
            simpa [failStatuses] using hf
          rcases this with rfl | rfl | rfl <;> decide
        simp [pollLoop, hs', hne, hf', repTrace]
      · intro hs
        have hs' : st i = Except.ok "completed" := by simpa using hs
        simp [pollLoop, hs', repTrace]
      · intro e hs
        have hs' : st i = Except.error e := by simpa using hs
        simp [pollLoop, hs', repTrace]
  | succ k ih =>
    intro fuel i hk hpre
    match fuel, hk with
    | f + 1, hk =>
      have hfk : k < f := by omega
      obtain ⟨s0, h0, hn0⟩ := hpre 0 (by omega)
      have h0' : st i = Except.ok s0 := by simpa using h0
      simp only [isNonterminal, Bool.and_eq_true, Bool.not_eq_true'] at hn0
      have hpre' : ∀ j, j < k → ∃ s, st (i + 1 + j) = Except.ok s ∧ isNonterminal s = true := by
        intro j hj
        rw [show i + 1 + j = i + (j + 1) by omega]
        exact hpre (j + 1) (by omega)
      have ihs := ih f (i + 1) hfk hpre'
      have hidx : i + 1 + k = i + (k + 1) := by omega
      have hn2 : s0 ∉ failStatuses := by simpa using hn0.2
      refine ⟨?_, ?_, ?_⟩
      · intro s hs hfs
        have hrec := ihs.1 s (by rw [hidx]; exact hs) hfs
        simp [pollLoop, h0', hn0.1, hn2, hrec, repTrace]
      · intro hs
        have hrec := ihs.2.1 (by rw [hidx]; exact hs)
        simp [pollLoop, h0', hn0.1, hn2, hrec, repTrace]
      · intro e hs
        have hrec := ihs.2.2 e (by rw [hidx]; exact hs)
        simp [pollLoop, h0', hn0.1, hn2, hrec, repTrace]

theorem pollLoop_keeps_polling (st : Nat → Except String String) (rid : Nat) :
    ∀ fuel i, (∀ j, j < fuel → ∃ s, st (i + j) = Except.ok s ∧ isNonterminal s = true) →
      pollLoop st rid fuel i = (PollOut.outOfFuel, repTrace rid fuel) := by
  intro fuel
  induction fuel with
  | zero => intro i _; simp [pollLoop, repTrace]
  | succ f ih =>
    intro i h
    obtain ⟨s0, h0, hn0⟩ := h 0 (by omega)
    have h0' : st i = Except.ok s0 := by simpa using h0
    simp only [isNonterminal, Bool.and_eq_true, Bool.not_eq_true'] at hn0
    have h' : ∀ j, j < f → ∃ s, st (i + 1 + j) = Except.ok s ∧ isNonterminal s = true := by
      intro j hj
      rw [show i + 1 + j = i + (j + 1) by omega]
      exact h (j + 1) (by omega)
    have hn2 : s0 ∉ failStatuses := by simpa using hn0.2
    simp [pollLoop, h0', hn0.1, hn2, ih (i + 1) h', repTrace]

theorem all_imp {l : List Event} {p q : Event → Bool}
    (h : l.all p = true) (hpq : ∀ e, p e = true → q e = true) : l.all q = true := by
  induction l with
  | nil => rfl
  | cons a t ih =>
    simp only [List.all_cons, Bool.and_eq_true] at h ⊢
    exact ⟨hpq a h.1, ih h.2⟩

theorem containsStr_append2 (a b : String) : containsStr (a ++ b) b :=
  ⟨a.data, [], by simp [String.data_append]⟩

theorem containsStr_noResponse (u : String) : containsStr (noResponseMsg u) u :=
  ⟨("I" ++ sq ++ "m sorry, ").data,
   (", I didn" ++ sq ++ "t receive a response. How else can I assist you?").data,
   by simp [noResponseMsg, String.data_append]⟩

theorem containsStr_apology (u : String) : containsStr (apologyMsg u) u :=
  ⟨("I" ++ sq ++ "m sorry, ").data,
   (", I encountered an error while processing your request. How can I help you differently?").data,
   by simp [apologyMsg, String.data_append]⟩

theorem containsStr_runFailed (s : String) : containsStr (runFailedMsg s) s :=
  containsStr_append2 "Run failed with status: " s

theorem goc_filter_listMsgs (tenv : ThreadEnv) (cached : Option String) :
    (get_or_create_thread tenv cached).trace.filter Event.isListMsgs = [] :=
  all_filter_nil (goc_trace_shape tenv cached)
    (by intro e he; cases e <;> simp_all [Event.isThreadTrace, Event.isListMsgs])

theorem poll_filter_listMsgs (st : Nat → Except String String) (rid fuel i : Nat) :
    (pollLoop st rid fuel i).2.filter Event.isListMsgs = [] :=
  all_filter_nil (pollLoop_trace_shape st rid fuel i)
    (by intro e he; cases e <;> simp_all [Event.isPollEvent, Event.isListMsgs])

theorem capture_filter_speak (cap : CapEnv) :
    (get_audio_input cap).trace.filter Event.isSpeak = [] :=
  all_filter_nil (capture_trace_shape cap)
    (by intro e he; cases e <;> simp_all [Event.isCaptureLocal, Event.isSpeak])

theorem capture_filter_enter (cap : CapEnv) :
    (get_audio_input cap).trace.filter Event.isEnterOi = [] :=
  all_filter_nil (capture_trace_shape cap)
    (by intro e he; cases e <;> simp_all [Event.isCaptureLocal, Event.isEnterOi])

/-- A configuration with the api key set, an initialized assistant handle
and user name Alex, used in concrete witnesses. -/
def wCfg : Config := { apiKey := some "k", assistantId := some "a1", userName := "Alex" }

/-- A thread environment whose retrieval and creation both succeed. -/
def wThread : ThreadEnv :=
  { retrieveThread := fun _ => Except.ok (), createThread := Except.ok "th1" }

/-- A thread environment whose retrieval and creation both raise. -/
def wThreadFail : ThreadEnv :=
  { retrieveThread := fun _ => Except.error "not found",
    createThread := Except.error "server down" }

/-- A run environment where every remote call succeeds, the run completes
on the first poll, and the newest message is an assistant reply. -/
def wRun : RunEnv :=
  { createMessage := Except.ok (), createRun := Except.ok 7,
    runStatus := fun _ => Except.ok "completed",
    listMessages := Except.ok [({ role := "assistant", content := ["hello there"] } : Msg)] }

/-- A capture environment that successfully hears and transcribes `t`. -/
def wCap (t : String) : CapEnv :=
  { listenTimeout := false,
    trans := { clientNone := false, writeTemp := Except.ok "/tmp/a.wav",
               transcribe := Except.ok t } }

/-- Claim C10: if the client api key or the assistant handle is unset
(falsy) when `analyze_audio` is called, it returns the fixed disabled
message immediately, leaves the cached thread handle unchanged, and
performs no remote operation at all: its event trace is empty, so no
thread retrieval or creation, no message append and no run ever happen. -/
theorem claim10_disabled_guard (cfg : Config) (env : RunEnv) (tenv : ThreadEnv)
    (cached : Option String) (fuel : Nat) (prompt : String)
    (h : truthy cfg.apiKey = false ∨ truthy cfg.assistantId = false) :
    analyze_audio cfg env tenv cached fuel prompt
      = { result := some disabledMsg, cache := cached, trace := [] } := by
  unfold analyze_audio
  rcases h with h | h <;> simp [h]

theorem claim10_witness :
    analyze_audio { apiKey := some "k", assistantId := none, userName := "Alex" }
        wRun wThread none 3 "hello"
      = { result := some disabledMsg, cache := none, trace := [] } :=
  claim10_disabled_guard _ wRun wThread none 3 "hello" (Or.inr rfl)

/-- Claim C2: when thread acquisition yields no truthy handle,
`analyze_audio` returns the fixed thread-failure report for this turn (it
does not raise: its result is a string) and performs none of the later
remote steps: its whole trace is the thread-acquisition trace, whose events
are all thread-retrieval, thread-creation or print events, hence no message
append, no run creation, no run poll and no message fetch occur. -/
theorem claim2_thread_failure_no_followup (cfg : Config) (env : RunEnv) (tenv : ThreadEnv)
    (cached : Option String) (fuel : Nat) (prompt : String)
    (hk : truthy cfg.apiKey = true) (ha : truthy cfg.assistantId = true)
    (ht : truthy (get_or_create_thread tenv cached).result = false) :
    analyze_audio cfg env tenv cached fuel prompt
      = { result := some threadFailMsg,
          cache := (get_or_create_thread tenv cached).cache,
          trace := (get_or_create_thread tenv cached).trace } ∧
    (analyze_audio cfg env tenv cached fuel prompt).trace.all Event.isThreadTrace = true := by
  have h1 : analyze_audio cfg env tenv cached fuel prompt
      = { result := some threadFailMsg,
          cache := (get_or_create_thread tenv cached).cache,
          trace := (get_or_create_thread tenv cached).trace } := by
    unfold analyze_audio
    simp [hk, ha, ht]
  exact ⟨h1, by rw [h1]; exact goc_trace_shape tenv cached⟩

theorem claim2_witness :
    (analyze_audio wCfg wRun wThreadFail none 3 "hi").result = some threadFailMsg ∧
    (analyze_audio wCfg wRun wThreadFail none 3 "hi").trace.all Event.isThreadTrace = true := by
  have h := claim2_thread_failure_no_followup wCfg wRun wThreadFail none 3 "hi" rfl rfl rfl
  exact ⟨by rw [h.1], h.2⟩

/-- Claim C9: the cached thread handle is maintained lazily by
`get_or_create_thread`: whenever any handle is returned the cache equals
the returned handle; a truthy cached handle is attempted by retrieval first
(the trace starts with the retrieval event) and reused unchanged on
success without any creation; when no truthy handle is cached, or when
retrieval raises, creation is attempted, updating the cache to the new id
on success and leaving the cache unchanged (returning no handle) when
creation raises. -/
theorem claim9_lazy_cache (env : ThreadEnv) (cached : Option String) :
    ((get_or_create_thread env cached).result.isSome = true →
      (get_or_create_thread env cached).cache = (get_or_create_thread env cached).result) ∧
    (∀ tid, cached = some tid → tid ≠ "" → env.retrieveThread tid = Except.ok () →
      get_or_create_thread env cached
        = { result := some tid, cache := some tid, trace := [Event.retrieveThread tid] }) ∧
    (∀ tid, cached = some tid → tid ≠ "" →
      ∃ tl, (get_or_create_thread env cached).trace = Event.retrieveThread tid :: tl) ∧
    ((truthy cached = false ∨ (∃ e, env.retrieveThread (cached.getD "") = Except.error e)) →
      (∀ ntid, env.createThread = Except.ok ntid →
        (get_or_create_thread env cached).result = some ntid ∧
        (get_or_create_thread env cached).cache = some ntid) ∧
      (∀ e, env.createThread = Except.error e →
        (get_or_create_thread env cached).result = none ∧
        (get_or_create_thread env cached).cache = cached)) := by
  cases cached with
  | none =>
    cases h : env.createThread <;>
      simp [get_or_create_thread, truthy, h]
  | some tid0 =>
    by_cases h0 : tid0 = ""
    · subst h0
      cases h : env.createThread <;>
        simp [get_or_create_thread, truthy, h]
    · have htr : truthy (some tid0) = true := by simp [truthy, h0]
      cases hr : env.retrieveThread tid0 with
      | ok u =>
        refine ⟨by simp [get_or_create_thread, htr, hr], ?_, ?_, ?_⟩
        · intro tid htid _ _
          cases htid
          simp [get_or_create_thread, htr, hr]
        · intro tid htid _
          cases htid
          exact ⟨[], by simp [get_or_create_thread, htr, hr]⟩
        · rintro (hf | ⟨e, he⟩)
          · rw [htr] at hf; cases hf
          · rw [show (some tid0).getD "" = tid0 from rfl] at he
            rw [hr] at he; cases he
      | error e0 =>
        cases hc : env.createThread with
        | ok ntid =>
          refine ⟨by simp [get_or_create_thread, htr, hr, hc], ?_, ?_, ?_⟩
          · intro tid htid _ hok
            cases htid
            rw [hr] at hok; cases hok
          · intro tid htid _
            cases htid
            exact ⟨[Event.printLine ("Error retrieving thread: " ++ e0), Event.createThread,
              Event.printLine ("New thread created with ID: " ++ ntid)],
              by simp [get_or_create_thread, htr, hr, hc]⟩
          · intro _
            constructor
            · intro ntid2 hok
              cases hok
              simp [get_or_create_thread, htr, hr, hc]
            · intro e2 herr
              exact Except.noConfusion herr
        | error ec =>
          refine ⟨by simp [get_or_create_thread, htr, hr, hc], ?_, ?_, ?_⟩
          · intro tid htid _ hok
            cases htid
            rw [hr] at hok; cases hok
          · intro tid htid _
            cases htid
            exact ⟨[Event.printLine ("Error retrieving thread: " ++ e0), Event.createThread,
              Event.printLine ("Error creating thread: " ++ ec)],
              by simp [get_or_create_thread, htr, hr, hc]⟩
          · intro _
            constructor
            · intro ntid2 hok
              exact Except.noConfusion hok
            · intro e2 herr
              cases herr
              simp [get_or_create_thread, htr, hr, hc]

theorem claim9_witness :
    get_or_create_thread wThread (some "t0")
      = { result := some "t0", cache := some "t0", trace := [Event.retrieveThread "t0"] } ∧
    (get_or_create_thread wThreadFail none).result = none ∧
    (get_or_create_thread wThreadFail none).cache = none := by
  have h := claim9_lazy_cache wThread (some "t0")
  have h2 := claim9_lazy_cache wThreadFail none
  have hcreate := (h2.2.2.2 (Or.inl rfl)).2 "server down" rfl
  exact ⟨h.2.1 "t0" rfl (by decide) rfl, hcreate.1, hcreate.2⟩

/-- Claim C8 counterexample: with the temporary file successfully created
and written, a transcription call that raises jumps to the handler, which
returns `None` without ever unlinking the file: the trace ends with the
error print and contains no `tempUnlink` event, so the temporary file is
not deleted on every outcome of the transcription call. -/
theorem claim8_counterexample :
    transcribe_audio { clientNone := false, writeTemp := Except.ok "/tmp/a.wav",
                       transcribe := Except.error "api down" }
      = { result := none,
          trace := [Event.tempCreate "/tmp/a.wav", Event.transcribeCall,
            Event.printLine "Error in transcribe_audio: api down"] } ∧
    Event.tempUnlink "/tmp/a.wav" ∉
      (transcribe_audio { clientNone := false, writeTemp := Except.ok "/tmp/a.wav",
                          transcribe := Except.error "api down" }).trace := by
  exact ⟨rfl, by simp [transcribe_audio]⟩

/-- Claim C8 amended: the temporary audio file is created immediately
before the transcription call and is deleted immediately after it when the
call succeeds; when the transcription call raises, the exception handler
returns `None` and the temporary file is not deleted. -/
theorem claim8_amended_scoped_temp (env : TransEnv) (path : String)
    (hc : env.clientNone = false) (hw : env.writeTemp = Except.ok path) :
    (∀ t, env.transcribe = Except.ok t →
      transcribe_audio env
        = { result := some (pyStrip t),
            trace := [Event.tempCreate path, Event.transcribeCall, Event.tempUnlink path] }) ∧
    (∀ e, env.transcribe = Except.error e →
      transcribe_audio env
        = { result := none,
            trace := [Event.tempCreate path, Event.transcribeCall,
              Event.printLine ("Error in transcribe_audio: " ++ e)] } ∧
      Event.tempUnlink path ∉ (transcribe_audio env).trace) := by
  constructor
  · intro t htr
    unfold transcribe_audio
    simp [hc, hw, htr]
  · intro e he
    have heq : transcribe_audio env
        = { result := none,
            trace := [Event.tempCreate path, Event.transcribeCall,
              Event.printLine ("Error in transcribe_audio: " ++ e)] } := by
      unfold transcribe_audio
      simp [hc, hw, he]
    refine ⟨heq, ?_⟩
    rw [heq]
    simp

theorem claim8_witness :
    transcribe_audio { clientNone := false, writeTemp := Except.ok "/tmp/a.wav",
                       transcribe := Except.ok " hello " }
      = { result := some "hello",
          trace := [Event.tempCreate "/tmp/a.wav", Event.transcribeCall,
            Event.tempUnlink "/tmp/a.wav"] } := by
  have h := claim8_amended_scoped_temp
    { clientNone := false, writeTemp := Except.ok "/tmp/a.wav",
      transcribe := Except.ok " hello " } "/tmp/a.wav" rfl rfl
  exact (h.1 " hello " rfl).trans (by decide)

/-- Claim C5: after the run completes, `analyze_audio` performs exactly one
message fetch, requesting the newest message first (`order = "desc"`,
`limit = 1`); if no message exists, or the newest message's role is not
`"assistant"`, it returns the fallback no-response string, which contains
the configured user's name; otherwise it returns the assistant message's
text. -/
theorem claim5_fetch_reply (cfg : Config) (env : RunEnv) (tenv : ThreadEnv)
    (cached : Option String) (fuel : Nat) (prompt : String) (rid : Nat) (msgs : List Msg)
    (hk : truthy cfg.apiKey = true) (ha : truthy cfg.assistantId = true)
    (ht : truthy (get_or_create_thread tenv cached).result = true)
    (hm : env.createMessage = Except.ok ())
    (hr : env.createRun = Except.ok rid)
    (hp : (pollLoop env.runStatus rid fuel 0).1 = PollOut.completed)
    (hl : env.listMessages = Except.ok msgs) :
    ((analyze_audio cfg env tenv cached fuel prompt).trace.filter Event.isListMsgs
      = [Event.listMessages ((get_or_create_thread tenv cached).result.getD "") "desc" 1]) ∧
    (msgs = [] →
      (analyze_audio cfg env tenv cached fuel prompt).result
        = some (noResponseMsg cfg.userName)) ∧
    (∀ m ms, msgs = m :: ms → ¬m.role = "assistant" →
      (analyze_audio cfg env tenv cached fuel prompt).result
        = some (noResponseMsg cfg.userName)) ∧
    (∀ m ms c cs, msgs = m :: ms → m.role = "assistant" → m.content = c :: cs →
      (analyze_audio cfg env tenv cached fuel prompt).result = some c) ∧
    containsStr (noResponseMsg cfg.userName) cfg.userName := by
  have hg := goc_filter_listMsgs tenv cached
  have hpz := poll_filter_listMsgs env.runStatus rid fuel 0
  refine ⟨?_, ?_, ?_, ?_, containsStr_noResponse cfg.userName⟩
  · unfold analyze_audio
    cases msgs with
    | nil =>
      simp [hk, ha, ht, hm, hr, hp, hl, List.filter_append, hg, hpz, Event.isListMsgs]
    | cons m ms =>
      by_cases hrole : m.role = "assistant"
      · cases hcont : m.content <;>
          simp [hk, ha, ht, hm, hr, hp, hl, hrole, hcont,
            List.filter_append, hg, hpz, Event.isListMsgs]
      · simp [hk, ha, ht, hm, hr, hp, hl, hrole,
          List.filter_append, hg, hpz, Event.isListMsgs]
  · intro hnil
    subst hnil
    unfold analyze_audio
    simp [hk, ha, ht, hm, hr, hp, hl]
  · intro m ms hcons hrole
    subst hcons
    unfold analyze_audio
    simp [hk, ha, ht, hm, hr, hp, hl, hrole]
  · intro m ms c cs hcons hrole hcont
    subst hcons
    unfold analyze_audio
    simp [hk, ha, ht, hm, hr, hp, hl, hrole, hcont]

theorem claim5_witness :
    (analyze_audio wCfg wRun wThread (some "t0") 3 "hi").result = some "hello there" ∧
    containsStr (noResponseMsg "Alex") "Alex" := by
  have h := claim5_fetch_reply wCfg wRun wThread (some "t0") 3 "hi" 7
    [({ role := "assistant", content := ["hello there"] } : Msg)]
    rfl rfl rfl rfl rfl rfl rfl
  exact ⟨h.2.2.2.1 ({ role := "assistant", content := ["hello there"] } : Msg)
    [] "hello there" [] rfl rfl rfl, h.2.2.2.2⟩

/-- Claim C6 counterexample: with the thread-creation call raising an
exception (and no cached handle), `analyze_audio` returns the fixed
thread-failure report, which neither contains the configured user's name
(here Alex) nor equals the apology string, so not every remote exception
inside the query path is converted into an apology naming the user. -/
theorem claim6_counterexample :
    (analyze_audio wCfg wRun wThreadFail none 3 "hi").result = some threadFailMsg ∧
    ¬ containsStr threadFailMsg "Alex" ∧
    threadFailMsg ≠ apologyMsg "Alex" := by
  refine ⟨rfl, by decide, by decide⟩

/-- Claim C6 amended: exceptions raised during thread retrieval or creation
are caught inside `get_or_create_thread` (a retrieval failure falls through
to creation, and a creation failure makes `analyze_audio` return the fixed
thread-failure report, which does not name the user); every exception
raised by the remote dependency at the message-append, run-creation,
run-poll or message-fetch step, or while reading the reply content, is
caught within `analyze_audio` and converted into the apology string, which
names the configured user; `analyze_audio` never propagates an exception:
its only non-string outcome is the poll loop still polling. -/
theorem claim6_amended_localized (cfg : Config) (env : RunEnv) (tenv : ThreadEnv)
    (cached : Option String) (fuel : Nat) (prompt : String)
    (hk : truthy cfg.apiKey = true) (ha : truthy cfg.assistantId = true) :
    (truthy (get_or_create_thread tenv cached).result = false →
      (analyze_audio cfg env tenv cached fuel prompt).result = some threadFailMsg) ∧
    (truthy (get_or_create_thread tenv cached).result = true →
      (∀ e, env.createMessage = Except.error e →
        (analyze_audio cfg env tenv cached fuel prompt).result
          = some (apologyMsg cfg.userName)) ∧
      (env.createMessage = Except.ok () →
        (∀ e, env.createRun = Except.error e →
          (analyze_audio cfg env tenv cached fuel prompt).result
            = some (apologyMsg cfg.userName)) ∧
        (∀ rid, env.createRun = Except.ok rid →
          (∀ e, (pollLoop env.runStatus rid fuel 0).1 = PollOut.raised e →
            (analyze_audio cfg env tenv cached fuel prompt).result
              = some (apologyMsg cfg.userName)) ∧
          ((pollLoop env.runStatus rid fuel 0).1 = PollOut.completed →
            (∀ e, env.listMessages = Except.error e →
              (analyze_audio cfg env tenv cached fuel prompt).result
                = some (apologyMsg cfg.userName)) ∧
            (∀ m ms, env.listMessages = Except.ok (m :: ms) → m.role = "assistant" →
              m.content = [] →
              (analyze_audio cfg env tenv cached fuel prompt).result
                = some (apologyMsg cfg.userName)))))) ∧
    ((analyze_audio cfg env tenv cached fuel prompt).result = none →
      ∃ rid, env.createRun = Except.ok rid ∧
        (pollLoop env.runStatus rid fuel 0).1 = PollOut.outOfFuel) ∧
    containsStr (apologyMsg cfg.userName) cfg.userName := by
  refine ⟨?_, ?_, ?_, containsStr_apology cfg.userName⟩
  · intro htf
    unfold analyze_audio
    simp [hk, ha, htf]
  · intro htv
    refine ⟨?_, ?_⟩
    · intro e he
      unfold analyze_audio
      simp [hk, ha, htv, he]
    · intro hmok
      refine ⟨?_, ?_⟩
      · intro e he
        unfold analyze_audio
        simp [hk, ha, htv, hmok, he]
      · intro rid hrok
        refine ⟨?_, ?_⟩
        · intro e hp
          unfold analyze_audio
          simp [hk, ha, htv, hrok, hmok, hp]
        · intro hp
          refine ⟨?_, ?_⟩
          · intro e hl
            unfold analyze_audio
            simp [hk, ha, htv, hrok, hmok, hp, hl]
          · intro m ms hl hrole hcont
            unfold analyze_audio
            simp [hk, ha, htv, hrok, hmok, hp, hl, hrole, hcont]
  · intro hnone
    by_cases htv : truthy (get_or_create_thread tenv cached).result = true
    · cases hm : env.createMessage with
      | error e =>
        exfalso
        unfold analyze_audio at hnone
        simp [hk, ha, htv, hm] at hnone
      | ok u =>
        cases hr : env.createRun with
        | error e =>
          exfalso
          unfold analyze_audio at hnone
          simp [hk, ha, htv, hm, hr] at hnone
        | ok rid =>
          cases hp : (pollLoop env.runStatus rid fuel 0).1 with
          | outOfFuel => exact ⟨rid, rfl, hp⟩
          | raised e =>
            exfalso
            unfold analyze_audio at hnone
            simp [hk, ha, htv, hm, hr, hp] at hnone
          | failedWith s =>
            exfalso
            unfold analyze_audio at hnone
            simp [hk, ha, htv, hm, hr, hp] at hnone
          | completed =>
            exfalso
            cases hl : env.listMessages with
            | error e =>
              unfold analyze_audio at hnone
              simp [hk, ha, htv, hm, hr, hp, hl] at hnone
            | ok msgs =>
              cases msgs with
              | nil =>
                unfold analyze_audio at hnone
                simp [hk, ha, htv, hm, hr, hp, hl] at hnone
              | cons m ms =>
                by_cases hrole : m.role = "assistant"
                · cases hcont : m.content <;>
                    (unfold analyze_audio at hnone
                     simp [hk, ha, htv, hm, hr, hp, hl, hrole, hcont] at hnone)
                · unfold analyze_audio at hnone
                  simp [hk, ha, htv, hm, hr, hp, hl, hrole] at hnone
    · exfalso
      have htf : truthy (get_or_create_thread tenv cached).result = false := by
        cases h : truthy (get_or_create_thread tenv cached).result
        · rfl
        · exact absurd h htv
      unfold analyze_audio at hnone
      simp [hk, ha, htf] at hnone

/-- A run environment whose run-creation call raises, used in the witness
for the amended C6. -/
def wRunErr : RunEnv :=
  { createMessage := Except.ok (), createRun := Except.error "boom",
    runStatus := fun _ => Except.ok "completed",
    listMessages := Except.ok [] }

theorem claim6_witness :
    (analyze_audio wCfg wRunErr wThread (some "t0") 3 "hi").result
      = some (apologyMsg "Alex") ∧
    containsStr (apologyMsg "Alex") "Alex" := by
  have h := claim6_amended_localized wCfg wRunErr wThread (some "t0") 3 "hi" rfl rfl
  exact ⟨((h.2.1 rfl).2 rfl).1 "boom" rfl, h.2.2.2⟩

/-- Claim C1: the run-status poll loop re-checks the run once per
iteration, sleeping exactly one time unit between consecutive checks
(after `k` non-terminal polls the trace is `repTrace rid k`, one
`retrieveRun` and one `sleep 1` per iteration, plus the final check), and
it exits only on a terminal status: when the status at poll `k` is
`failed`, `cancelled` or `expired`, `analyze_audio` stops polling and
returns the failure string, which contains the status name, and performs
no message fetch; when it is `completed`, `analyze_audio` proceeds to
fetch the reply (exactly one message-fetch event appears in its trace);
and when every status within the fuel bound is non-terminal the loop is
still polling and `analyze_audio` has produced no result. -/
theorem claim1_poll_terminal (cfg : Config) (env : RunEnv) (tenv : ThreadEnv)
    (cached : Option String) (fuel k : Nat) (prompt : String) (rid : Nat)
    (hk : truthy cfg.apiKey = true) (ha : truthy cfg.assistantId = true)
    (ht : truthy (get_or_create_thread tenv cached).result = true)
    (hm : env.createMessage = Except.ok ())
    (hr : env.createRun = Except.ok rid)
    (hfuel : k < fuel)
    (hpre : ∀ j, j < k → ∃ s, env.runStatus j = Except.ok s ∧ isNonterminal s = true) :
    (∀ s, env.runStatus k = Except.ok s → failStatuses.contains s = true →
      pollLoop env.runStatus rid fuel 0
        = (PollOut.failedWith s, repTrace rid k ++ [Event.retrieveRun rid]) ∧
      (analyze_audio cfg env tenv cached fuel prompt).result = some (runFailedMsg s) ∧
      containsStr (runFailedMsg s) s ∧
      (analyze_audio cfg env tenv cached fuel prompt).trace.filter Event.isListMsgs = []) ∧
    (env.runStatus k = Except.ok "completed" →
      pollLoop env.runStatus rid fuel 0
        = (PollOut.completed, repTrace rid k ++ [Event.retrieveRun rid]) ∧
      (analyze_audio cfg env tenv cached fuel prompt).trace.filter Event.isListMsgs
        = [Event.listMessages ((get_or_create_thread tenv cached).result.getD "") "desc" 1]) ∧
    ((∀ j, j < fuel → ∃ s, env.runStatus j = Except.ok s ∧ isNonterminal s = true) →
      pollLoop env.runStatus rid fuel 0 = (PollOut.outOfFuel, repTrace rid fuel) ∧
      (analyze_audio cfg env tenv cached fuel prompt).result = none) := by
  have hpre0 : ∀ j, j < k →
      ∃ s, env.runStatus (0 + j) = Except.ok s ∧ isNonterminal s = true := by
    intro j hj
    rw [Nat.zero_add]
    exact hpre j hj
  have hreach := pollLoop_reaches env.runStatus rid k fuel 0 hfuel hpre0
  have hg := goc_filter_listMsgs tenv cached
  have hpz := poll_filter_listMsgs env.runStatus rid fuel 0
  refine ⟨?_, ?_, ?_⟩
  · intro s hs hfs
    have hpoll := hreach.1 s (by rw [Nat.zero_add]; exact hs) hfs
    have hp1 : (pollLoop env.runStatus rid fuel 0).1 = PollOut.failedWith s := by rw [hpoll]
    refine ⟨hpoll, ?_, containsStr_runFailed s, ?_⟩
    · unfold analyze_audio
      simp [hk, ha, ht, hm, hr, hp1]
    · unfold analyze_audio
      simp [hk, ha, ht, hm, hr, hp1, List.filter_append, hg, hpz, Event.isListMsgs]
  · intro hs
    have hpoll := hreach.2.1 (by rw [Nat.zero_add]; exact hs)
    have hp1 : (pollLoop env.runStatus rid fuel 0).1 = PollOut.completed := by rw [hpoll]
    refine ⟨hpoll, ?_⟩
    cases hl : env.listMessages with
    | error e =>
      unfold analyze_audio
      simp [hk, ha, ht, hm, hr, hp1, hl, List.filter_append, hg, hpz, Event.isListMsgs]
    | ok msgs =>
      cases msgs with
      | nil =>
        unfold analyze_audio
        simp [hk, ha, ht, hm, hr, hp1, hl, List.filter_append, hg, hpz, Event.isListMsgs]
      | cons m ms =>
        by_cases hrole : m.role = "assistant"
        · cases hcont : m.content <;>
            (unfold analyze_audio
             simp [hk, ha, ht, hm, hr, hp1, hl, hrole, hcont,
               List.filter_append, hg, hpz, Event.isListMsgs])
        · unfold analyze_audio
          simp [hk, ha, ht, hm, hr, hp1, hl, hrole,
            List.filter_append, hg, hpz, Event.isListMsgs]
  · intro hall
    have hall0 : ∀ j, j < fuel →
        ∃ s, env.runStatus (0 + j) = Except.ok s ∧ isNonterminal s = true := by
      intro j hj
      rw [Nat.zero_add]
      exact hall j hj
    have hpoll := pollLoop_keeps_polling env.runStatus rid fuel 0 hall0
    have hp1 : (pollLoop env.runStatus rid fuel 0).1 = PollOut.outOfFuel := by rw [hpoll]
    refine ⟨hpoll, ?_⟩
    unfold analyze_audio
    simp [hk, ha, ht, hm, hr, hp1]

/-- A status sequence that is in progress on the first poll and cancelled
on every later poll, used in the witness for C1. -/
def wStat : Nat → Except String String :=
  fun i => if i = 0 then Except.ok "in_progress" else Except.ok "cancelled"

/-- A run environment whose run gets cancelled after one in-progress poll,
used in the witness for C1. -/
def wRunCancelled : RunEnv :=
  { createMessage := Except.ok (), createRun := Except.ok 7,
    runStatus := wStat, listMessages := Except.ok [] }

theorem claim1_witness :
    pollLoop wStat 7 3 0
      = (PollOut.failedWith "cancelled", repTrace 7 1 ++ [Event.retrieveRun 7]) ∧
    (analyze_audio wCfg wRunCancelled wThread (some "t0") 3 "hi").result
      = some (runFailedMsg "cancelled") := by
  have h := claim1_poll_terminal wCfg wRunCancelled wThread (some "t0") 3 1 "hi" 7
    rfl rfl rfl rfl rfl (by omega)
    (by intro j hj
        interval_cases j
        exact ⟨"in_progress", rfl, rfl⟩)
  have hc := h.1 "cancelled" rfl rfl
  exact ⟨hc.1, hc.2.1⟩

theorem oiLoop_filter_enter (script : List OiIter) :
    (oiLoop script).2.filter Event.isEnterOi = [] := by
  induction script with
  | nil => rfl
  | cons it rest ih =>
    have hcapf := capture_filter_enter it.cap
    simp only [oiLoop]
    cases h : (get_audio_input it.cap).result with
    | none => simp [h, List.filter_append, hcapf, ih, Event.isEnterOi]
    | some s =>
      by_cases hx : (pyLower s == innerExit) = true
      · simp [h, hx, List.filter_append, hcapf, Event.isEnterOi]
      · cases hchat : it.chat <;>
          simp [h, hx, hchat, List.filter_append, hcapf, ih, Event.isEnterOi]

theorem oiSession_filter_enter (script : List OiIter) :
    (open_interpreter_session script).2.filter Event.isEnterOi = [] := by
  unfold open_interpreter_session
  simp [List.filter_append, oiLoop_filter_enter script, Event.isEnterOi]

/-- Claim C7: when audio capture times out with no speech detected,
`get_audio_input` returns no utterance having performed only local work
(the listening notice, ambient-noise adjustment, the listen attempt and
the timeout notice): no remote call of any kind, in particular no
transcription, no thread, message or run operation and no speech
synthesis.  The main cycle then prints a notice and restarts listening
with no other side effect: the cached thread handle and the rest of the
loop are exactly those of the remaining script. -/
theorem claim7_timeout_no_remote (cfg : Config) (it : MainIter) (rest : List MainIter)
    (cached : Option String) (htmo : it.cap.listenTimeout = true) :
    get_audio_input it.cap
      = { result := none,
          trace := [Event.printLine "Listening for speech...", Event.adjustNoise, Event.listen,
            Event.printLine "No speech detected within the timeout period."] } ∧
    (get_audio_input it.cap).trace.all (fun e => !Event.isRemote e) = true ∧
    mainLoop cfg (it :: rest) cached
      = { out := (mainLoop cfg rest cached).out, cache := (mainLoop cfg rest cached).cache,
          trace := (get_audio_input it.cap).trace
            ++ [Event.printLine "No input detected. Waiting for your command."]
            ++ (mainLoop cfg rest cached).trace } := by
  have h1 : get_audio_input it.cap
      = { result := none,
          trace := [Event.printLine "Listening for speech...", Event.adjustNoise, Event.listen,
            Event.printLine "No speech detected within the timeout period."] } := by
    unfold get_audio_input
    simp [htmo]
  have h1r : (get_audio_input it.cap).result = none := by rw [h1]
  refine ⟨h1, by rw [h1]; rfl, ?_⟩
  simp [mainLoop, h1r]

/-- A main-loop iteration whose audio capture times out. -/
def wIterTimeout : MainIter :=
  { cap := { listenTimeout := true,
             trans := { clientNone := false, writeTemp := Except.ok "/tmp/a.wav",
                        transcribe := Except.ok "x" } },
    run := wRun, thread := wThread, aaFuel := 3, oiScript := [] }

theorem claim7_witness :
    get_audio_input wIterTimeout.cap
      = { result := none,
          trace := [Event.printLine "Listening for speech...", Event.adjustNoise, Event.listen,
            Event.printLine "No speech detected within the timeout period."] } ∧
    mainLoop wCfg [wIterTimeout] none
      = { out := (mainLoop wCfg [] none).out, cache := (mainLoop wCfg [] none).cache,
          trace := (get_audio_input wIterTimeout.cap).trace
            ++ [Event.printLine "No input detected. Waiting for your command."]
            ++ (mainLoop wCfg [] none).trace } := by
  have h := claim7_timeout_no_remote wCfg wIterTimeout [] none rfl
  exact ⟨h.1, h.2.2⟩

/-- Claim C3: for an utterance whose lower-casing is one of the exit words
`exit`, `quit`, `goodbye`, the main loop terminates cleanly (`exited`, the
`break`, not an error path), leaves the cached thread handle unchanged,
and emits exactly one farewell (one spoken message in the whole trace),
whose text contains the configured user's name, before any mode dispatch
or conversation query: the trace contains no interpreter-session entry and
no remote conversation call. -/
theorem claim3_exit_farewell (cfg : Config) (it : MainIter) (rest : List MainIter)
    (cached : Option String) (u : String)
    (hu : (get_audio_input it.cap).result = some u)
    (hexit : exitWords.contains (pyLower u) = true) :
    mainLoop cfg (it :: rest) cached
      = { out := MainOut.exited, cache := cached,
          trace := (get_audio_input it.cap).trace ++ [
            Event.printLine ("Athena: Goodbye, " ++ cfg.userName ++ "! Have a great day."),
            Event.speak ("Goodbye, " ++ cfg.userName ++ "! Have a great day.") "nova"] } ∧
    (mainLoop cfg (it :: rest) cached).trace.filter Event.isSpeak
      = [Event.speak ("Goodbye, " ++ cfg.userName ++ "! Have a great day.") "nova"] ∧
    containsStr ("Goodbye, " ++ cfg.userName ++ "! Have a great day.") cfg.userName ∧
    (mainLoop cfg (it :: rest) cached).trace.all
      (fun e => !Event.isEnterOi e && !Event.isConvCall e) = true := by
  have h1 : mainLoop cfg (it :: rest) cached
      = { out := MainOut.exited, cache := cached,
          trace := (get_audio_input it.cap).trace ++ [
            Event.printLine ("Athena: Goodbye, " ++ cfg.userName ++ "! Have a great day."),
            Event.speak ("Goodbye, " ++ cfg.userName ++ "! Have a great day.") "nova"] } := by
    have hexit2 : pyLower u ∈ exitWords := by simpa using hexit
    simp [mainLoop, hu, hexit, hexit2]
  refine ⟨h1, ?_, containsStr_append "Goodbye, " cfg.userName "! Have a great day.", ?_⟩
  · rw [h1]
    simp [List.filter_append, capture_filter_speak it.cap, Event.isSpeak]
  · rw [h1]
    simp only [List.all_append, Bool.and_eq_true]
    constructor
    · exact all_imp (capture_trace_shape it.cap)
        (by intro e he
            cases e <;> simp_all [Event.isCaptureLocal, Event.isEnterOi, Event.isConvCall])
    · simp [Event.isEnterOi, Event.isConvCall]

/-- A main-loop iteration whose capture hears the word Exit. -/
def wIterExit : MainIter :=
  { cap := wCap "Exit", run := wRun, thread := wThread, aaFuel := 3, oiScript := [] }

theorem claim3_witness :
    mainLoop wCfg [wIterExit] none
      = { out := MainOut.exited, cache := none,
          trace := (get_audio_input wIterExit.cap).trace ++ [
            Event.printLine ("Athena: Goodbye, " ++ wCfg.userName ++ "! Have a great day."),
            Event.speak ("Goodbye, " ++ wCfg.userName ++ "! Have a great day.") "nova"] } :=
  (claim3_exit_farewell wCfg wIterExit [] none "Exit" rfl (by decide)).1

/-- Claim C4: an utterance whose lower-casing equals the trigger phrase
makes the main loop enter the command-execution session exactly once for
that occurrence (the events contributed by this iteration contain exactly
one session entry, on top of whatever later iterations contribute); the
inner session's exit phrase is not among the outer exit words and no outer
exit word equals the inner exit phrase, so an utterance lower-casing to
the inner exit phrase never passes the outer exit check, and an utterance
lower-casing to an outer exit word never passes the inner exit check. -/
theorem claim4_trigger_dispatch (cfg : Config) (it : MainIter) (rest : List MainIter)
    (cached : Option String) (u : String)
    (hu : (get_audio_input it.cap).result = some u)
    (htr : pyLower u = oiTrigger) :
    ((mainLoop cfg (it :: rest) cached).trace.filter Event.isEnterOi).length
      = 1 + (match (open_interpreter_session it.oiScript).1 with
             | none => 0
             | some _ => ((mainLoop cfg rest cached).trace.filter Event.isEnterOi).length) ∧
    innerExit ∉ exitWords ∧
    (∀ w ∈ exitWords, w ≠ innerExit) ∧
    (∀ v : String, pyLower v = innerExit → exitWords.contains (pyLower v) = false) ∧
    (∀ w v : String, w ∈ exitWords → pyLower v = w → (pyLower v == innerExit) = false) := by
  have hnotexit : exitWords.contains (pyLower u) = false := by
    rw [htr]; decide
  have hne : pyLower u ∉ exitWords := by
    rw [htr]; decide
  have htrbeq : (pyLower u == oiTrigger) = true := by
    rw [htr]; simp
  have hcapf := capture_filter_enter it.cap
  have hoif := oiSession_filter_enter it.oiScript
  refine ⟨?_, ?_, ?_, ?_, ?_⟩
  · cases hoi : (open_interpreter_session it.oiScript).1 with
    | none =>
      simp [mainLoop, hu, hnotexit, hne, htrbeq, hoi, List.filter_append, hcapf, hoif,
        Event.isEnterOi]
    | some resp =>
      simp [mainLoop, hu, hnotexit, hne, htrbeq, hoi, List.filter_append, hcapf, hoif,
        Event.isEnterOi, Nat.add_comm]
  · intro h
    simp [exitWords, innerExit] at h
  · intro w hw
    fin_cases hw <;> decide
  · intro v hv
    rw [hv]; decide
  · intro w v hw hv
    rw [hv]
    fin_cases hw <;> decide

/-- One interpreter-session iteration whose capture hears the exit phrase,
used in the witness for C4. -/
def wOiExit : OiIter := { cap := wCap "Exit Interpreter", chat := Except.ok "done" }

/-- A main-loop iteration whose capture hears the trigger phrase and whose
interpreter session ends on its first utterance. -/
def wIterTrig : MainIter :=
  { cap := wCap "Start Open Interpreter", run := wRun, thread := wThread, aaFuel := 3,
    oiScript := [wOiExit] }

theorem claim4_witness :
    ((mainLoop wCfg [wIterTrig] none).trace.filter Event.isEnterOi).length = 1 ∧
    exitWords.contains innerExit = false := by
  have h := claim4_trigger_dispatch wCfg wIterTrig [] none "Start Open Interpreter" rfl rfl
  constructor
  · rw [h.1]; rfl
  · decide

end VoiceAssistant
